import Mathlib

/-!
Shallow embedding of the conversation-context engine of ai_chat.py
(class OpenAIAssistant): context truncation, role prompts, single-shot
chat, streaming chat, and the persisted conversation log.

Modelling choices. A chat message dict is a Message with a Role and a
content string. The assistant's mutable fields are an AssistantState whose
conversation_context is a map from user id to an optional message list and
whose conversations field is the persisted log, a map from user id to the
stored snapshot list (an absent key reads as the empty list). The prompt
store is a map from role name to optional prompt text. The backend is a
function from the sent message list to either a reply or an error string;
the streaming backend returns the list of content fragments delivered plus
an optional error raised during iteration. Python exceptions that the
source catches are modelled as Option or Except results.
-/

/-- Message role, the role field of a chat message dict. -/
inductive Role where
  | system
  | user
  | assistant
deriving DecidableEq

/-- One chat message dict: a role and a content string. -/
structure Message where
  role : Role
  content : String
deriving DecidableEq

/-- A persisted conversation record: a timestamp plus the full message list. -/
structure Snapshot where
  timestamp : String
  messages : List Message
deriving DecidableEq

/-- The mutable fields of OpenAIAssistant that the chat engine touches. -/
structure AssistantState where
  current_role : String
  conversation_context : String → Option (List Message)
  max_turns : Nat
  truncate_mode : String
  conversations : String → List Snapshot

/-- Python list slice xs with lower bound minus k: the whole list when k is
zero, otherwise the last k elements (all of xs when k exceeds its length). -/
def pySliceLast (k : Nat) (xs : List Message) : List Message :=
  if k = 0 then xs else xs.drop (xs.length - k)

/-- OpenAIAssistant._truncate_context, lines 339-362: early return when at
most the system message is present; no-op when the turn count, computed as
the integer division of length minus one by two, is within max_turns; mode
clear keeps only element 0, written here as take 1, which equals the
singleton of element 0 since the length exceeds 1; any other mode keeps
element 0 followed by the Python slice of the last max_turns times two
messages. -/
def truncateContext (mt : Nat) (mode : String) (ctx : List Message) : List Message :=
  if ctx.length ≤ 1 then ctx
  else if (ctx.length - 1) / 2 ≤ mt then ctx
  else if mode = "clear" then ctx.take 1
  else ctx.take 1 ++ pySliceLast (mt * 2) ctx

/-- OpenAIAssistant.load_prompt over an abstract prompt mapping. The Python
call prompts.get with the entry at key default as the fallback evaluates
that fallback eagerly, so the default entry must be present whatever the
requested name; none models the KeyError raised when it is missing. -/
def load_prompt (prompts : String → Option String) (name : String) : Option String :=
  match prompts "default" with
  | none => none
  | some d => some ((prompts name).getD d)

/-- OpenAIAssistant.set_role, lines 234-246: succeeds exactly when the name
is a key of the prompt store; on success that name becomes the active role,
on failure nothing changes. -/
def set_role (prompts : String → Option String) (s : AssistantState)
    (role_type : String) : AssistantState × Bool :=
  if (prompts role_type).isSome then ({ s with current_role := role_type }, true)
  else (s, false)

/-- Lines 164-168 and 390-394: for an existing context, overwrite element 0
in place when it is a system message, otherwise insert a fresh system
message at position 0; none models the IndexError on an empty list. -/
def refreshSystem (system_prompt : String) : List Message → Option (List Message)
  | [] => none
  | m :: rest =>
    if m.role = Role.system then some ({ m with content := system_prompt } :: rest)
    else some (⟨Role.system, system_prompt⟩ :: m :: rest)

/-- Lines 161-168 and 387-394: seed a fresh context with the system message,
or refresh an existing one. -/
def contextInit (system_prompt : String) :
    Option (List Message) → Option (List Message)
  | none => some [⟨Role.system, system_prompt⟩]
  | some c => refreshSystem system_prompt c

/-- OpenAIAssistant.save_conversation, lines 260-285: append one snapshot
under the user's key, creating the key when absent. -/
def save_conversation (log : String → List Snapshot) (user_id ts : String)
    (conversation : List Message) : String → List Snapshot :=
  fun v => if v = user_id then log user_id ++ [⟨ts, conversation⟩] else log v

/-- OpenAIAssistant.get_conversation_history, lines 287-295: the stored list
for the user, empty when the key is absent. -/
def get_conversation_history (log : String → List Snapshot) (user_id : String) :
    List Snapshot :=
  log user_id

/-- Assignment to self.conversation_context at key user_id. -/
def updateCtx (f : String → Option (List Message)) (user_id : String)
    (c : List Message) : String → Option (List Message) :=
  fun v => if v = user_id then some c else f v

/-- Outcome of a single-shot chat call: the assistant text or an error dict. -/
inductive ChatResult where
  | ok (response : String)
  | error (msg : String)
deriving DecidableEq

/-- One event yielded by chat_stream. -/
inductive StreamEvent where
  | content (text : String)
  | done
  | error (msg : String)
deriving DecidableEq

/-- Lines 150-156 and 375-382: Python tests role_type for truthiness, so
None and the empty string skip the switch, as does a name equal to the
current role; otherwise set_role is attempted and its failure aborts the
call with an invalid-role error. -/
def roleGate (prompts : String → Option String) (s : AssistantState)
    (role_type : Option String) : Except String AssistantState :=
  match role_type with
  | none => Except.ok s
  | some r =>
    if r ≠ "" ∧ r ≠ s.current_role then
      if (set_role prompts s r).2 then Except.ok (set_role prompts s r).1
      else Except.error ("无效的角色类型: " ++ r)
    else Except.ok s

/-- Lines 158-198, after the role gate: load the active role's prompt, seed
or refresh the user's context, truncate it, append the user message and
store the list, call the backend, and on success append the assistant reply
and persist a snapshot of the final list. -/
def chatCore (prompts : String → Option String)
    (backend : List Message → Except String String) (ts : String)
    (s : AssistantState) (user_id message : String) : AssistantState × ChatResult :=
  match load_prompt prompts s.current_role with
  | none => (s, ChatResult.error "KeyError: default")
  | some system_prompt =>
    match contextInit system_prompt (s.conversation_context user_id) with
    | none => (s, ChatResult.error "IndexError: list index out of range")
    | some ctx1 =>
      let ctx3 := truncateContext s.max_turns s.truncate_mode ctx1 ++ [⟨Role.user, message⟩]
      match backend ctx3 with
      | Except.error e =>
        ({ s with conversation_context := updateCtx s.conversation_context user_id ctx3 },
         ChatResult.error e)
      | Except.ok reply =>
        ({ s with
            conversation_context :=
              updateCtx s.conversation_context user_id (ctx3 ++ [⟨Role.assistant, reply⟩]),
            conversations :=
              save_conversation s.conversations user_id ts (ctx3 ++ [⟨Role.assistant, reply⟩]) },
         ChatResult.ok reply)

/-- OpenAIAssistant.chat, lines 141-206. -/
def chat (prompts : String → Option String)
    (backend : List Message → Except String String) (ts : String)
    (s : AssistantState) (user_id message : String) (role_type : Option String) :
    AssistantState × ChatResult :=
  match roleGate prompts s role_type with
  | Except.error e => (s, ChatResult.error e)
  | Except.ok s1 => chatCore prompts backend ts s1 user_id message

/-- Lines 384-443, after the role gate: the same prelude as chatCore, then
the streaming backend. When iteration raises, the fragments already yielded
are followed by a terminal error event and nothing is appended or persisted;
on normal completion the concatenated fragments are appended as the
assistant message, a snapshot is persisted, and a done event terminates. -/
def chatStreamCore (prompts : String → Option String)
    (sb : List Message → List String × Option String) (ts : String)
    (s : AssistantState) (user_id message : String) :
    AssistantState × List StreamEvent :=
  match load_prompt prompts s.current_role with
  | none => (s, [StreamEvent.error "KeyError: default"])
  | some system_prompt =>
    match contextInit system_prompt (s.conversation_context user_id) with
    | none => (s, [StreamEvent.error "IndexError: list index out of range"])
    | some ctx1 =>
      let ctx3 := truncateContext s.max_turns s.truncate_mode ctx1 ++ [⟨Role.user, message⟩]
      match sb ctx3 with
      | (chunks, some e) =>
        ({ s with conversation_context := updateCtx s.conversation_context user_id ctx3 },
         chunks.map StreamEvent.content ++ [StreamEvent.error e])
      | (chunks, none) =>
        ({ s with
            conversation_context :=
              updateCtx s.conversation_context user_id
                (ctx3 ++ [⟨Role.assistant, String.join chunks⟩]),
            conversations :=
              save_conversation s.conversations user_id ts
                (ctx3 ++ [⟨Role.assistant, String.join chunks⟩]) },
         chunks.map StreamEvent.content ++ [StreamEvent.done])

/-- OpenAIAssistant.chat_stream, lines 364-452, with the yielded events
collected in order. -/
def chat_stream (prompts : String → Option String)
    (sb : List Message → List String × Option String) (ts : String)
    (s : AssistantState) (user_id message : String) (role_type : Option String) :
    AssistantState × List StreamEvent :=
  match roleGate prompts s role_type with
  | Except.error e => (s, [StreamEvent.error e])
  | Except.ok s1 => chatStreamCore prompts sb ts s1 user_id message

/-- Prompt store holding only the default entry. -/
def scenPrompts : String → Option String :=
  fun n => if n = "default" then some "SYS" else none

/-- Prompt store holding a default entry and one named role. -/
def scenPrompts2 : String → Option String :=
  fun n => if n = "default" then some "D" else if n = "code" then some "CODEP" else none

/-- Stubbed backend replying A, B, C to the user messages a, b, c. -/
def scenBackend : List Message → Except String String :=
  fun msgs =>
    match msgs.getLast? with
    | some ⟨Role.user, "a"⟩ => Except.ok "A"
    | some ⟨Role.user, "b"⟩ => Except.ok "B"
    | some ⟨Role.user, "c"⟩ => Except.ok "C"
    | _ => Except.error "stub"

/-- Backend that always succeeds with the reply R. -/
def cexBackend : List Message → Except String String :=
  fun _ => Except.ok "R"

/-- Backend that always fails with the message down. -/
def failBackend : List Message → Except String String :=
  fun _ => Except.error "down"

/-- Streaming backend that yields two fragments and then raises. -/
def sbFail : List Message → List String × Option String :=
  fun _ => (["he", "llo"], some "boom")

/-- Fresh engine state: default role, no contexts, max_turns 2, sliding
mode, empty log. -/
def scenState0 : AssistantState :=
  { current_role := "default",
    conversation_context := fun _ => none,
    max_turns := 2,
    truncate_mode := "sliding",
    conversations := fun _ => [] }

/-- The state after the three scenario turns a, b, c for user u1. -/
def scenState3 : AssistantState :=
  (chat scenPrompts scenBackend "t3"
    ((chat scenPrompts scenBackend "t2"
      ((chat scenPrompts scenBackend "t1" scenState0 "u1" "a" none).1)
      "u1" "b" none).1)
    "u1" "c" none).1

/-- A five-message context: the system message plus two complete turns. -/
def wMsgs : List Message :=
  [⟨Role.system, "s"⟩, ⟨Role.user, "1"⟩, ⟨Role.assistant, "2"⟩,
   ⟨Role.user, "3"⟩, ⟨Role.assistant, "4"⟩]

/-- Claim C1: in sliding mode, when the turn count exceeds a positive
max_turns, truncation returns a list of length one plus max_turns times two
whose element 0 is the original element 0 and whose remaining elements are
exactly the last max_turns times two messages of the original context in
order. -/
theorem truncate_sliding_window (mt : Nat) (ctx : List Message)
    (hmt : 0 < mt) (hturns : mt < (ctx.length - 1) / 2) :
    (truncateContext mt "sliding" ctx).length = 1 + mt * 2 ∧
    (truncateContext mt "sliding" ctx).head? = ctx.head? ∧
    (truncateContext mt "sliding" ctx).drop 1 = ctx.drop (ctx.length - mt * 2) := by
  rcases ctx with _ | ⟨c0, t⟩
  · simp at hturns
  · simp only [List.length_cons] at hturns ⊢
    have hres : truncateContext mt "sliding" (c0 :: t)
        = (c0 :: t).take 1 ++ (c0 :: t).drop ((c0 :: t).length - mt * 2) := by
      unfold truncateContext pySliceLast
      rw [if_neg (by simp only [List.length_cons]; omega),
          if_neg (by simp only [List.length_cons]; omega),
          if_neg (by decide), if_neg (by omega)]
    rw [hres]
    refine ⟨?_, ?_, ?_⟩
    · simp only [List.length_append, List.length_take, List.length_cons,
        List.length_drop]
      omega
    · simp
    · simp

/-- Claim C1 witness at max_turns 1 and a five-message context. -/
theorem truncate_sliding_window_witness :
    0 < 1 ∧ 1 < (wMsgs.length - 1) / 2 ∧
    ((truncateContext 1 "sliding" wMsgs).length = 1 + 1 * 2 ∧
     (truncateContext 1 "sliding" wMsgs).head? = wMsgs.head? ∧
     (truncateContext 1 "sliding" wMsgs).drop 1 = wMsgs.drop (wMsgs.length - 1 * 2)) :=
  ⟨by decide, by decide, truncate_sliding_window 1 wMsgs (by decide) (by decide)⟩

/-- Claim C2: in clear mode, when the turn count exceeds max_turns,
truncation returns a one-element list holding the original element 0. -/
theorem truncate_clear_collapse (mt : Nat) (ctx : List Message)
    (hturns : mt < (ctx.length - 1) / 2) :
    (truncateContext mt "clear" ctx).length = 1 ∧
    (truncateContext mt "clear" ctx).head? = ctx.head? := by
  rcases ctx with _ | ⟨c0, t⟩
  · simp at hturns
  · simp only [List.length_cons] at hturns
    have hres : truncateContext mt "clear" (c0 :: t) = (c0 :: t).take 1 := by
      unfold truncateContext
      rw [if_neg (by simp only [List.length_cons]; omega),
          if_neg (by simp only [List.length_cons]; omega), if_pos rfl]
    rw [hres]
    simp

/-- Claim C2 witness at max_turns 1 and a five-message context. -/
theorem truncate_clear_collapse_witness :
    1 < (wMsgs.length - 1) / 2 ∧
    ((truncateContext 1 "clear" wMsgs).length = 1 ∧
     (truncateContext 1 "clear" wMsgs).head? = wMsgs.head?) :=
  ⟨by decide, truncate_clear_collapse 1 wMsgs (by decide)⟩

/-- Claim C3: whatever the mode, when the turn count is within max_turns,
truncation is the identity. -/
theorem truncate_within_limit_noop (mt : Nat) (mode : String) (ctx : List Message)
    (hturns : (ctx.length - 1) / 2 ≤ mt) :
    truncateContext mt mode ctx = ctx := by
  unfold truncateContext
  by_cases h1 : ctx.length ≤ 1
  · rw [if_pos h1]
  · rw [if_neg h1, if_pos hturns]

/-- Claim C3 witness at max_turns 2 and a five-message context in sliding
mode. -/
theorem truncate_within_limit_noop_witness :
    (wMsgs.length - 1) / 2 ≤ 2 ∧ truncateContext 2 "sliding" wMsgs = wMsgs :=
  ⟨by decide, truncate_within_limit_noop 2 "sliding" wMsgs (by decide)⟩

/-- Claim C4 counterexample: after three scenario turns a, b, c for user u1
with max_turns 2 in sliding mode, the context is not the claimed
five-element list, because truncation runs before the user message is
appended and at entry of turn three the turn count 2 does not exceed
max_turns 2, so nothing has been dropped yet. -/
theorem scen_three_turns_not_five :
    scenState3.conversation_context "u1" ≠
      some [⟨Role.system, "SYS"⟩, ⟨Role.user, "b"⟩, ⟨Role.assistant, "B"⟩,
            ⟨Role.user, "c"⟩, ⟨Role.assistant, "C"⟩] := by
  decide

/-- Claim C4 amended: after the three scenario turns the context for u1 is
the full seven-element list holding all three turns; the oldest turn would
only be dropped by the truncation step at the start of a fourth call. -/
theorem scen_three_turns_full :
    scenState3.conversation_context "u1" =
      some [⟨Role.system, "SYS"⟩, ⟨Role.user, "a"⟩, ⟨Role.assistant, "A"⟩,
            ⟨Role.user, "b"⟩, ⟨Role.assistant, "B"⟩,
            ⟨Role.user, "c"⟩, ⟨Role.assistant, "C"⟩] := by
  decide

/-- Claim C9: appending a snapshot for a user and then reading that user's
history returns the previously stored snapshots followed by the new one,
which is the last element. -/
theorem save_then_history (log : String → List Snapshot) (u ts : String)
    (msgs : List Message) :
    get_conversation_history (save_conversation log u ts msgs) u
      = get_conversation_history log u ++ [⟨ts, msgs⟩] ∧
    (get_conversation_history (save_conversation log u ts msgs) u).getLast?
      = some ⟨ts, msgs⟩ := by
  unfold get_conversation_history save_conversation
  simp

/-- Claim C7 counterexample: the empty string is a role name absent from the
prompt store, set_role on it fails and changes nothing, yet a chat call with
it as the role override succeeds and mutates the user's context, because
the Python truthiness test skips the role switch for an empty role_type. -/
theorem chat_empty_role_override_cex :
    scenPrompts "" = none ∧
    set_role scenPrompts scenState0 "" = (scenState0, false) ∧
    (chat scenPrompts cexBackend "t" scenState0 "u" "hi" (some "")).2
      = ChatResult.ok "R" ∧
    (chat scenPrompts cexBackend "t" scenState0 "u" "hi" (some "")).1.conversation_context "u"
      ≠ scenState0.conversation_context "u" := by
  refine ⟨rfl, rfl, rfl, by decide⟩

/-- Claim C7 amended: for a nonempty role name absent from the prompt store
and different from the active role, set_role returns failure and leaves the
state unchanged, and a chat call with that name as role override returns the
invalid-role error and leaves the whole state, hence every context,
unchanged. -/
theorem invalid_role_override (prompts : String → Option String)
    (backend : List Message → Except String String) (ts : String)
    (s : AssistantState) (u m r : String)
    (habs : prompts r = none) (hne : r ≠ "") (hcur : r ≠ s.current_role) :
    set_role prompts s r = (s, false) ∧
    (chat prompts backend ts s u m (some r)).1 = s ∧
    (chat prompts backend ts s u m (some r)).2
      = ChatResult.error ("无效的角色类型: " ++ r) := by
  have hset : set_role prompts s r = (s, false) := by
    unfold set_role
    rw [habs]
    rfl
  have hgate : roleGate prompts s (some r)
      = Except.error ("无效的角色类型: " ++ r) := by
    show (if r ≠ "" ∧ r ≠ s.current_role then
        if (set_role prompts s r).2 then Except.ok (set_role prompts s r).1
        else Except.error ("无效的角色类型: " ++ r)
      else Except.ok s) = Except.error ("无效的角色类型: " ++ r)
    rw [if_pos ⟨hne, hcur⟩, hset]
    rfl
  refine ⟨hset, ?_, ?_⟩ <;> simp only [chat, hgate]

/-- Claim C7 amended witness at the absent role name ghost. -/
theorem invalid_role_override_witness :
    scenPrompts "ghost" = none ∧ "ghost" ≠ "" ∧ "ghost" ≠ scenState0.current_role ∧
    (set_role scenPrompts scenState0 "ghost" = (scenState0, false) ∧
     (chat scenPrompts cexBackend "t" scenState0 "u" "hi" (some "ghost")).1 = scenState0 ∧
     (chat scenPrompts cexBackend "t" scenState0 "u" "hi" (some "ghost")).2
       = ChatResult.error ("无效的角色类型: " ++ "ghost")) :=
  ⟨rfl, by decide, by decide,
   invalid_role_override scenPrompts cexBackend "t" scenState0 "u" "hi" "ghost"
     rfl (by decide) (by decide)⟩

/-- Claim C8: after a successful switch to a role present in the prompt
store, the refresh step of a chat turn overwrites element 0 of an existing
context headed by a system message with the new role's prompt text,
preserving the list length and keeping a single system message at
position 0. -/
theorem role_switch_refresh (prompts : String → Option String)
    (s : AssistantState) (newRole p d : String) (m : Message) (rest : List Message)
    (hp : prompts newRole = some p) (hd : prompts "default" = some d)
    (hm : m.role = Role.system) :
    (set_role prompts s newRole).2 = true ∧
    (set_role prompts s newRole).1.current_role = newRole ∧
    load_prompt prompts (set_role prompts s newRole).1.current_role = some p ∧
    contextInit p (some (m :: rest)) = some (⟨Role.system, p⟩ :: rest) ∧
    (⟨Role.system, p⟩ :: rest : List Message).length = (m :: rest).length := by
  obtain ⟨mr, mc⟩ := m
  simp only at hm
  subst hm
  have hset : set_role prompts s newRole = ({ s with current_role := newRole }, true) := by
    unfold set_role
    rw [hp]
    rfl
  refine ⟨by rw [hset], by rw [hset], ?_, ?_, by simp⟩
  · rw [hset]
    unfold load_prompt
    rw [hd, hp]
    rfl
  · rfl

/-- Claim C8 witness: switching to the role code and refreshing a context of
one system message and one complete turn. -/
theorem role_switch_refresh_witness :
    scenPrompts2 "code" = some "CODEP" ∧ scenPrompts2 "default" = some "D" ∧
    (⟨Role.system, "old"⟩ : Message).role = Role.system ∧
    ((set_role scenPrompts2 scenState0 "code").2 = true ∧
     (set_role scenPrompts2 scenState0 "code").1.current_role = "code" ∧
     load_prompt scenPrompts2 (set_role scenPrompts2 scenState0 "code").1.current_role
       = some "CODEP" ∧
     contextInit "CODEP"
         (some [⟨Role.system, "old"⟩, ⟨Role.user, "x"⟩, ⟨Role.assistant, "y"⟩])
       = some [⟨Role.system, "CODEP"⟩, ⟨Role.user, "x"⟩, ⟨Role.assistant, "y"⟩] ∧
     ([⟨Role.system, "CODEP"⟩, ⟨Role.user, "x"⟩, ⟨Role.assistant, "y"⟩] : List Message).length
       = ([⟨Role.system, "old"⟩, ⟨Role.user, "x"⟩, ⟨Role.assistant, "y"⟩] : List Message).length) :=
  ⟨rfl, rfl, rfl,
   role_switch_refresh scenPrompts2 scenState0 "code" "CODEP" "D"
     ⟨Role.system, "old"⟩ [⟨Role.user, "x"⟩, ⟨Role.assistant, "y"⟩] rfl rfl rfl⟩

/-- Helper: a role gate that succeeds can only have changed the active role;
every other field of the state is untouched. -/
theorem roleGate_ok_fields (prompts : String → Option String) (s s1 : AssistantState)
    (rt : Option String) (h : roleGate prompts s rt = Except.ok s1) :
    s1.conversation_context = s.conversation_context ∧
    s1.conversations = s.conversations ∧
    s1.max_turns = s.max_turns ∧ s1.truncate_mode = s.truncate_mode := by
  cases rt with
  | none =>
    simp only [roleGate] at h
    injection h with h
    subst h
    exact ⟨rfl, rfl, rfl, rfl⟩
  | some r =>
    simp only [roleGate] at h
    split at h
    · split at h
      · injection h with h
        subst h
        unfold set_role
        split
        · exact ⟨rfl, rfl, rfl, rfl⟩
        · exact ⟨rfl, rfl, rfl, rfl⟩
      · exact absurd h (by simp)
    · injection h with h
      subst h
      exact ⟨rfl, rfl, rfl, rfl⟩

/-- Helper: chatCore never touches another user's context entry. -/
theorem chatCore_frame (prompts : String → Option String)
    (backend : List Message → Except String String) (ts : String)
    (s : AssistantState) (u m v : String) (hne : v ≠ u) :
    (chatCore prompts backend ts s u m).1.conversation_context v
      = s.conversation_context v := by
  simp only [chatCore]
  split
  · rfl
  · split
    · rfl
    · split
      · simp [updateCtx, hne]
      · simp [updateCtx, hne]

/-- Helper: chatStreamCore never touches another user's context entry. -/
theorem chatStreamCore_frame (prompts : String → Option String)
    (sb : List Message → List String × Option String) (ts : String)
    (s : AssistantState) (u m v : String) (hne : v ≠ u) :
    (chatStreamCore prompts sb ts s u m).1.conversation_context v
      = s.conversation_context v := by
  simp only [chatStreamCore]
  split
  · rfl
  · split
    · rfl
    · split
      · simp [updateCtx, hne]
      · simp [updateCtx, hne]

/-- Claim C6: a single-shot chat whose backend call fails returns that error
as the result, appends no assistant message, persists no snapshot, and
leaves the user's context at exactly the truncated context with the user
message appended. -/
theorem chat_backend_fail (prompts : String → Option String)
    (backend : List Message → Except String String) (ts : String)
    (s s1 : AssistantState) (u m : String) (rt : Option String)
    (sp : String) (ctx1 : List Message) (e : String)
    (hgate : roleGate prompts s rt = Except.ok s1)
    (hsp : load_prompt prompts s1.current_role = some sp)
    (hctx : contextInit sp (s1.conversation_context u) = some ctx1)
    (hfail : backend (truncateContext s1.max_turns s1.truncate_mode ctx1
        ++ [⟨Role.user, m⟩]) = Except.error e) :
    (chat prompts backend ts s u m rt).2 = ChatResult.error e ∧
    (chat prompts backend ts s u m rt).1.conversation_context u
      = some (truncateContext s1.max_turns s1.truncate_mode ctx1 ++ [⟨Role.user, m⟩]) ∧
    (chat prompts backend ts s u m rt).1.conversations = s.conversations := by
  obtain ⟨hcc, hcv, hmq, htq⟩ := roleGate_ok_fields prompts s s1 rt hgate
  refine ⟨?_, ?_, ?_⟩
  · simp only [chat, hgate, chatCore, hsp, hctx, hfail]
  · simp only [chat, hgate, chatCore, hsp, hctx, hfail]
    simp [updateCtx]
  · simp only [chat, hgate, chatCore, hsp, hctx, hfail]
    exact hcv

/-- Claim C6 witness: a fresh user whose backend call fails. -/
theorem chat_backend_fail_witness :
    roleGate scenPrompts scenState0 none = Except.ok scenState0 ∧
    load_prompt scenPrompts scenState0.current_role = some "SYS" ∧
    contextInit "SYS" (scenState0.conversation_context "u1")
      = some [⟨Role.system, "SYS"⟩] ∧
    failBackend (truncateContext scenState0.max_turns scenState0.truncate_mode
        [⟨Role.system, "SYS"⟩] ++ [⟨Role.user, "hi"⟩]) = Except.error "down" ∧
    ((chat scenPrompts failBackend "t" scenState0 "u1" "hi" none).2
       = ChatResult.error "down" ∧
     (chat scenPrompts failBackend "t" scenState0 "u1" "hi" none).1.conversation_context "u1"
       = some (truncateContext scenState0.max_turns scenState0.truncate_mode
           [⟨Role.system, "SYS"⟩] ++ [⟨Role.user, "hi"⟩]) ∧
     (chat scenPrompts failBackend "t" scenState0 "u1" "hi" none).1.conversations
       = scenState0.conversations) :=
  ⟨rfl, rfl, rfl, rfl,
   chat_backend_fail scenPrompts failBackend "t" scenState0 scenState0 "u1" "hi" none
     "SYS" [⟨Role.system, "SYS"⟩] "down" rfl rfl rfl rfl⟩

/-- Claim C5: a streaming chat whose backend stream raises during iteration
yields the delivered fragments followed by a terminal error event, yields no
done event, appends no assistant message, persists no snapshot, and leaves
the user's context at exactly the truncated context with the user message
appended. -/
theorem chat_stream_midfail (prompts : String → Option String)
    (sb : List Message → List String × Option String) (ts : String)
    (s s1 : AssistantState) (u m : String) (rt : Option String)
    (sp : String) (ctx1 : List Message) (chunks : List String) (e : String)
    (hgate : roleGate prompts s rt = Except.ok s1)
    (hsp : load_prompt prompts s1.current_role = some sp)
    (hctx : contextInit sp (s1.conversation_context u) = some ctx1)
    (hfail : sb (truncateContext s1.max_turns s1.truncate_mode ctx1
        ++ [⟨Role.user, m⟩]) = (chunks, some e)) :
    (chat_stream prompts sb ts s u m rt).2
      = chunks.map StreamEvent.content ++ [StreamEvent.error e] ∧
    StreamEvent.done ∉ (chat_stream prompts sb ts s u m rt).2 ∧
    (chat_stream prompts sb ts s u m rt).1.conversation_context u
      = some (truncateContext s1.max_turns s1.truncate_mode ctx1 ++ [⟨Role.user, m⟩]) ∧
    (chat_stream prompts sb ts s u m rt).1.conversations = s.conversations := by
  obtain ⟨hcc, hcv, hmq, htq⟩ := roleGate_ok_fields prompts s s1 rt hgate
  refine ⟨?_, ?_, ?_, ?_⟩
  · simp only [chat_stream, hgate, chatStreamCore, hsp, hctx, hfail]
  · simp only [chat_stream, hgate, chatStreamCore, hsp, hctx, hfail]
    simp
  · simp only [chat_stream, hgate, chatStreamCore, hsp, hctx, hfail]
    simp [updateCtx]
  · simp only [chat_stream, hgate, chatStreamCore, hsp, hctx, hfail]
    exact hcv

/-- Claim C5 witness: a fresh user whose stream yields two fragments and
then raises. -/
theorem chat_stream_midfail_witness :
    roleGate scenPrompts scenState0 none = Except.ok scenState0 ∧
    load_prompt scenPrompts scenState0.current_role = some "SYS" ∧
    contextInit "SYS" (scenState0.conversation_context "u1")
      = some [⟨Role.system, "SYS"⟩] ∧
    sbFail (truncateContext scenState0.max_turns scenState0.truncate_mode
        [⟨Role.system, "SYS"⟩] ++ [⟨Role.user, "hi"⟩]) = (["he", "llo"], some "boom") ∧
    ((chat_stream scenPrompts sbFail "t" scenState0 "u1" "hi" none).2
       = (["he", "llo"] : List String).map StreamEvent.content ++ [StreamEvent.error "boom"] ∧
     StreamEvent.done ∉ (chat_stream scenPrompts sbFail "t" scenState0 "u1" "hi" none).2 ∧
     (chat_stream scenPrompts sbFail "t" scenState0 "u1" "hi" none).1.conversation_context "u1"
       = some (truncateContext scenState0.max_turns scenState0.truncate_mode
           [⟨Role.system, "SYS"⟩] ++ [⟨Role.user, "hi"⟩]) ∧
     (chat_stream scenPrompts sbFail "t" scenState0 "u1" "hi" none).1.conversations
       = scenState0.conversations) :=
  ⟨rfl, rfl, rfl, rfl,
   chat_stream_midfail scenPrompts sbFail "t" scenState0 scenState0 "u1" "hi" none
     "SYS" [⟨Role.system, "SYS"⟩] ["he", "llo"] "boom" rfl rfl rfl rfl⟩

/-- Claim C10: a chat or chat_stream call for one user leaves every other
user's context entry exactly as it was, whatever the outcome of the call. -/
theorem other_user_frame (prompts : String → Option String)
    (backend : List Message → Except String String)
    (sb : List Message → List String × Option String)
    (ts : String) (s : AssistantState) (u m v : String) (rt : Option String)
    (hne : v ≠ u) :
    (chat prompts backend ts s u m rt).1.conversation_context v
      = s.conversation_context v ∧
    (chat_stream prompts sb ts s u m rt).1.conversation_context v
      = s.conversation_context v := by
  constructor
  · cases hg : roleGate prompts s rt with
    | error e => simp only [chat, hg]
    | ok s1 =>
      have hf := roleGate_ok_fields prompts s s1 rt hg
      simp only [chat, hg]
      rw [chatCore_frame prompts backend ts s1 u m v hne, hf.1]
  · cases hg : roleGate prompts s rt with
    | error e => simp only [chat_stream, hg]
    | ok s1 =>
      have hf := roleGate_ok_fields prompts s s1 rt hg
      simp only [chat_stream, hg]
      rw [chatStreamCore_frame prompts sb ts s1 u m v hne, hf.1]

/-- Claim C10 witness: a turn for user u1 leaves the entry of user u2
unchanged for both the single-shot and the streaming call. -/
theorem other_user_frame_witness :
    ("u2" : String) ≠ "u1" ∧
    ((chat scenPrompts scenBackend "t" scenState0 "u1" "a" none).1.conversation_context "u2"
       = scenState0.conversation_context "u2" ∧
     (chat_stream scenPrompts sbFail "t" scenState0 "u1" "a" none).1.conversation_context "u2"
       = scenState0.conversation_context "u2") :=
  ⟨by decide,
   other_user_frame scenPrompts scenBackend sbFail "t" scenState0 "u1" "a" "u2" none
     (by decide)⟩
